import Mathlib

/-!
Shallow embedding of `nevergrad/functions/images/core.py`: the image
recovery objective (`Image`), the adversarial objective
(`ImageAdversarial`), and the benchmark enumeration
(`ImageAdversarial.make_benchmark_functions`).

Real-valued arrays are modelled as flattened `List ℚ` (numpy/torch
float arithmetic is modelled exactly over the rationals); tensor shapes
are carried alongside as natural-number tuples.  Fallible operations
(numpy `reshape`, torch `view`, raising Python exceptions) return
`Except Err`.  Opaque collaborators (the torch classifier forward pass
and the `nn.CrossEntropyLoss` criterion) are parameters of the
evaluation function, as the spec treats them as frozen external
collaborators.
-/

namespace ImagesCore

/-- Python-level failures observable from this module: numpy/torch shape
failures, construction-parameter failures, a `NameError` on an unbound
name, and `ValueError`. -/
inductive Err where
  | shapeError : Err
  | configError : Err
  | nameError : String → Err
  | valueError : String → Err
  deriving DecidableEq, Repr

/-- `Image.domain_shape = (256, 256, 3)` (line 33). -/
def Image.domain_shape : ℕ × ℕ × ℕ := (256, 256, 3)

/-- Total number of elements of the recovery domain. -/
def domainSize : ℕ := 256 * 256 * 3

/-- Translation of `Image._loss` (lines 55-63): the candidate `x` is
ravelled and reshaped to `(256,256,3)` — which fails unless its total
number of elements is `256*256*3` — and the value is
`float(np.sum(np.fabs(np.subtract(x, self.data))))`, an elementwise
L1 distance to the frozen target `data`. -/
def Image._loss (data : List ℚ) (x : List ℚ) : Except Err ℚ :=
  if x.length = domainSize then
    Except.ok ((List.zipWith (fun a b => |a - b|) x data).sum)
  else
    Except.error Err.shapeError

/-- `Image._loss` as a state-threading evaluation: the method body
assigns no attribute of `self`, so the state (the frozen target) after
a call is the state before it. -/
def Image.evaluateS (data : List ℚ) (x : List ℚ) : Except Err ℚ × List ℚ :=
  (Image._loss data x, data)

theorem zipWith_absSub_sum_eq (x : List ℚ) :
    ∀ d : List ℚ, x.length = d.length →
      (List.zipWith (fun a b => |a - b|) x d).sum =
        ∑ i ∈ Finset.range x.length, |x.getD i 0 - d.getD i 0| := by
  induction x with
  | nil => intro d _; simp
  | cons a xs ih =>
    intro d h
    cases d with
    | nil => simp at h
    | cons b ds =>
      simp only [List.zipWith_cons_cons, List.sum_cons, List.length_cons]
      rw [Finset.sum_range_succ']
      simp only [List.getD_cons_succ, List.getD_cons_zero]
      rw [ih ds (by simpa using h)]
      ring

theorem zipWith_absSub_self_sum (d : List ℚ) :
    (List.zipWith (fun a b => |a - b|) d d).sum = 0 := by
  induction d with
  | nil => simp
  | cons a t ih => simp [ih]

theorem zipWith_absSub_succ_sum (d : List ℚ) :
    (List.zipWith (fun a b => |a - b|) (d.map (fun v => v + 1)) d).sum =
      (d.length : ℚ) := by
  induction d with
  | nil => simp
  | cons a t ih =>
    simp only [List.map_cons, List.zipWith_cons_cons, List.sum_cons,
      List.length_cons, ih]
    rw [show a + 1 - a = 1 by ring]
    simp
    ring

/-- C1: for a candidate whose total number of elements allows reshaping
to `(256,256,3)`, `Image._loss` returns the sum over all elements of
`|point - target|` against the frozen target; for any other length the
reshape fails (ShapeError). -/
theorem recovery_evaluate_l1 (data x : List ℚ) (hd : data.length = domainSize) :
    (x.length = domainSize →
      Image._loss data x =
        Except.ok (∑ i ∈ Finset.range domainSize, |x.getD i 0 - data.getD i 0|)) ∧
    (x.length ≠ domainSize → Image._loss data x = Except.error Err.shapeError) := by
  constructor
  · intro hx
    unfold Image._loss
    rw [if_pos hx, zipWith_absSub_sum_eq x data (by rw [hx, hd]), hx]
  · intro hx
    unfold Image._loss
    rw [if_neg hx]

theorem recovery_evaluate_l1_witness :
    Image._loss (List.replicate domainSize 0) (List.replicate domainSize 1) =
      Except.ok (∑ i ∈ Finset.range domainSize,
        |(List.replicate domainSize (1 : ℚ)).getD i 0 -
          (List.replicate domainSize (0 : ℚ)).getD i 0|) ∧
    Image._loss (List.replicate domainSize 0) [1] = Except.error Err.shapeError := by
  refine ⟨(recovery_evaluate_l1 _ _ (by simp)).1 (by simp),
    (recovery_evaluate_l1 _ _ (by simp)).2 (by simp [domainSize])⟩

/-- C7: the recovery evaluation is deterministic and leaves the frozen
state unchanged: two successive calls on the same point return the
identical scalar. -/
theorem recovery_deterministic (data x : List ℚ) (hx : x.length = domainSize) :
    ∃ v : ℚ, Image.evaluateS data x = (Except.ok v, data) ∧
      Image.evaluateS (Image.evaluateS data x).2 x = (Except.ok v, data) := by
  refine ⟨(List.zipWith (fun a b => |a - b|) x data).sum, ?_, ?_⟩ <;>
    simp [Image.evaluateS, Image._loss, hx]

theorem recovery_deterministic_witness :
    ∃ v : ℚ,
      Image.evaluateS (List.replicate domainSize 5) (List.replicate domainSize 0) =
        (Except.ok v, List.replicate domainSize 5) ∧
      Image.evaluateS
          (Image.evaluateS (List.replicate domainSize 5)
            (List.replicate domainSize 0)).2 (List.replicate domainSize 0) =
        (Except.ok v, List.replicate domainSize 5) :=
  recovery_deterministic (List.replicate domainSize 5)
    (List.replicate domainSize 0) (by simp)

/-- C8: evaluating the stored target itself gives exactly 0, and
evaluating the point equal to `target + 1` at every coordinate gives
exactly `256*256*3 = 196608`. -/
theorem recovery_target_and_plus_one (data : List ℚ)
    (hd : data.length = domainSize) :
    Image._loss data data = Except.ok 0 ∧
    Image._loss data (data.map (fun v => v + 1)) = Except.ok 196608 := by
  constructor
  · unfold Image._loss
    rw [if_pos hd, zipWith_absSub_self_sum]
  · unfold Image._loss
    rw [if_pos (by simpa using hd), zipWith_absSub_succ_sum, hd]
    norm_num [domainSize]

theorem recovery_target_and_plus_one_witness :
    Image._loss (List.replicate domainSize 128) (List.replicate domainSize 128) =
      Except.ok 0 ∧
    Image._loss (List.replicate domainSize 128)
        ((List.replicate domainSize (128 : ℚ)).map (fun v => v + 1)) =
      Except.ok 196608 :=
  recovery_target_and_plus_one (List.replicate domainSize 128) (by simp)

/-! ## Adversarial attacks -/

/-- The classifier modules constructed in this file: `TestClassifier`
(a single `nn.Linear(image_size*image_size*3, 10)` layer, lines 92-99)
and `Resnet50` (a pretrained torchvision resnet behind a `Normalize`,
lines 80-89).  Their forward passes are opaque collaborators. -/
inductive Classifier where
  | testClassifier : ℕ → Classifier
  | resnet50 : Classifier
  deriving DecidableEq, Repr

/-- A descriptor value, as recorded by `add_descriptors`. -/
inductive DescrVal where
  | str : String → DescrVal
  | int : ℤ → DescrVal
  | bool : Bool → DescrVal
  | rat : ℚ → DescrVal
  deriving DecidableEq, Repr

/-- The state an `ImageAdversarial` instance holds after `__init__`
(lines 105-130): the targeted flag, epsilon, the base image (its flat
data and its tensor shape), the long label, which classifier module it
wraps, and the descriptor dictionary (to which `__init__` adds
`label`, `targeted` and `epsilon`). -/
structure AdvInstance where
  targeted : Bool
  epsilon : ℚ
  imageDims : ℕ × ℕ × ℕ
  imageData : List ℚ
  label : ℤ
  classifier : Classifier
  descriptors : List (String × DescrVal)
  deriving DecidableEq, Repr

/-- `ImageAdversarial.__init__` attribute and descriptor assignment
(lines 111-130): stores the arguments and adds the descriptors
`label`, `targeted`, `epsilon`. -/
def ImageAdversarial.new (classifier : Classifier) (dims : ℕ × ℕ × ℕ)
    (data : List ℚ) (label : ℤ) (targeted : Bool) (epsilon : ℚ) : AdvInstance :=
  { targeted := targeted
    epsilon := epsilon
    imageDims := dims
    imageData := data
    label := label
    classifier := classifier
    descriptors := [("label", DescrVal.int label), ("targeted", DescrVal.bool targeted),
      ("epsilon", DescrVal.rat epsilon)] }

/-- `self.imsize = self.image.shape[1]` (line 118). -/
def AdvInstance.imsize (st : AdvInstance) : ℕ := st.imageDims.2.1

/-- `torch.clamp(·, 0, 1)` on one coordinate. -/
def clamp01 (a : ℚ) : ℚ := min (max a 0) 1

/-- Translation of `ImageAdversarial._loss` (lines 145-151):
`image_adv = torch.clamp(self.image + x, 0, 1)` (elementwise, requiring
matching sizes), `image_adv.view(1, 3, imsize, imsize)` (fails unless
the element count equals `1*3*imsize*imsize`), then
`value = criterion(classifier(image_adv), label)` and the result is
`value * (1 if targeted else -1)`.  `forward` and `criterion` are the
opaque torch collaborators (the classifier forward pass and
`nn.CrossEntropyLoss`). -/
def ImageAdversarial._loss (forward : Classifier → List ℚ → List ℚ)
    (criterion : List ℚ → ℤ → ℚ) (st : AdvInstance) (x : List ℚ) :
    Except Err ℚ :=
  if x.length = st.imageData.length then
    let image_adv := (List.zipWith (· + ·) st.imageData x).map clamp01
    if image_adv.length = 1 * 3 * st.imsize * st.imsize then
      let output_adv := forward st.classifier image_adv
      let value := criterion output_adv st.label
      Except.ok (value * (if st.targeted then 1 else -1))
    else Except.error Err.shapeError
  else Except.error Err.shapeError

theorem zipWith_add_replicate_zero (d : List ℚ) :
    List.zipWith (· + ·) d (List.replicate d.length 0) = d := by
  induction d with
  | nil => simp
  | cons a t ih =>
    rw [List.length_cons, List.replicate_succ, List.zipWith_cons_cons, add_zero, ih]

/-- C2: `evaluate` computes the criterion on the classifier output for
the clamped perturbed image and returns `+loss` when targeted, `-loss`
when untargeted; with `targeted = false` the zero perturbation gives
minus the cross-entropy of the classifier on the clamped base image. -/
theorem adversarial_sign_contract (forward : Classifier → List ℚ → List ℚ)
    (criterion : List ℚ → ℤ → ℚ) (st : AdvInstance) (x : List ℚ)
    (hx : x.length = st.imageData.length)
    (hsq : st.imageData.length = 1 * 3 * st.imsize * st.imsize) :
    ImageAdversarial._loss forward criterion st x =
      Except.ok
        ((criterion
            (forward st.classifier
              ((List.zipWith (· + ·) st.imageData x).map clamp01)) st.label) *
          (if st.targeted then 1 else -1)) ∧
    (st.targeted = false →
      ImageAdversarial._loss forward criterion st
          (List.replicate st.imageData.length 0) =
        Except.ok
          (-(criterion (forward st.classifier (st.imageData.map clamp01))
              st.label))) := by
  have hper : ∀ y : List ℚ, y.length = st.imageData.length →
      ((List.zipWith (· + ·) st.imageData y).map clamp01).length =
        1 * 3 * st.imsize * st.imsize := by
    intro y hy
    simp [List.length_zipWith, hy, ← hsq]
  constructor
  · unfold ImageAdversarial._loss
    rw [if_pos hx, if_pos (hper x hx)]
  · intro ht
    unfold ImageAdversarial._loss
    rw [if_pos (by simp), if_pos (hper _ (by simp))]
    rw [zipWith_add_replicate_zero, ht]
    simp

theorem adversarial_sign_contract_witness :
    ImageAdversarial._loss (fun _ l => l) (fun l _ => l.headD 0)
        (ImageAdversarial.new (Classifier.testClassifier 1) (3, 1, 1)
          [1/2, 3, -2] 0 false (1/20)) [0, 0, 0] =
      Except.ok
        (((fun (l : List ℚ) (_ : ℤ) => l.headD 0)
            ((fun (_ : Classifier) (l : List ℚ) => l)
              (Classifier.testClassifier 1)
              ((List.zipWith (· + ·) [1/2, 3, -2] [0, 0, 0]).map clamp01)) 0) *
          (if false then 1 else -1)) ∧
    ImageAdversarial._loss (fun _ l => l) (fun l _ => l.headD 0)
        (ImageAdversarial.new (Classifier.testClassifier 1) (3, 1, 1)
          [1/2, 3, -2] 0 false (1/20)) (List.replicate 3 0) =
      Except.ok
        (-((fun (l : List ℚ) (_ : ℤ) => l.headD 0)
            ((fun (_ : Classifier) (l : List ℚ) => l)
              (Classifier.testClassifier 1)
              (([1/2, 3, -2] : List ℚ).map clamp01)) 0)) :=
  ⟨(adversarial_sign_contract _ _ _ _ (by simp [ImageAdversarial.new])
      (by simp [ImageAdversarial.new, AdvInstance.imsize])).1,
    (adversarial_sign_contract (fun _ l => l) (fun l _ => l.headD 0)
      (ImageAdversarial.new (Classifier.testClassifier 1) (3, 1, 1)
        [1/2, 3, -2] 0 false (1/20)) [0, 0, 0]
      (by simp [ImageAdversarial.new])
      (by simp [ImageAdversarial.new, AdvInstance.imsize])).2 rfl⟩

/-- C10: `_loss` reshapes the perturbed image to `(1, 3, s, s)` where
`s = image.shape[1]`; for a base image of shape `(3, H, W)` the view
fails whenever `H*W ≠ s*s` (i.e. the image is not square), and under
the square precondition `W = H` the view always succeeds and the loss
returns a value. -/
theorem adversarial_square_reshape (forward : Classifier → List ℚ → List ℚ)
    (criterion : List ℚ → ℤ → ℚ) (st : AdvInstance) (x : List ℚ)
    (hc : st.imageDims.1 = 3)
    (hlen : st.imageData.length = st.imageDims.1 * st.imageDims.2.1 * st.imageDims.2.2)
    (hx : x.length = st.imageData.length) :
    (st.imageDims.2.1 * st.imageDims.2.2 ≠ st.imageDims.2.1 * st.imageDims.2.1 →
      ImageAdversarial._loss forward criterion st x = Except.error Err.shapeError) ∧
    (st.imageDims.2.2 = st.imageDims.2.1 →
      ∃ v : ℚ,
        ImageAdversarial._loss forward criterion st x = Except.ok v) := by
  have hadv : ((List.zipWith (· + ·) st.imageData x).map clamp01).length =
      st.imageData.length := by
    simp [List.length_zipWith, hx]
  constructor
  · intro hne
    unfold ImageAdversarial._loss
    rw [if_pos hx, if_neg]
    rw [hadv, hlen, hc, AdvInstance.imsize]
    intro h
    apply hne
    have h3 : 3 * (st.imageDims.2.1 * st.imageDims.2.2) =
        3 * (st.imageDims.2.1 * st.imageDims.2.1) := by ring_nf; ring_nf at h; linarith
    omega
  · intro hW
    unfold ImageAdversarial._loss
    rw [if_pos hx, if_pos (by rw [hadv, hlen, hc, AdvInstance.imsize, hW])]
    exact ⟨_, rfl⟩

theorem adversarial_square_reshape_witness :
    ImageAdversarial._loss (fun _ l => l) (fun l _ => l.headD 0)
        (ImageAdversarial.new Classifier.resnet50 (3, 2, 3)
          (List.replicate 18 0) 0 false (1/20)) (List.replicate 18 0) =
      Except.error Err.shapeError ∧
    ∃ v : ℚ,
      ImageAdversarial._loss (fun _ l => l) (fun l _ => l.headD 0)
          (ImageAdversarial.new Classifier.resnet50 (3, 2, 2)
            (List.replicate 12 0) 0 false (1/20)) (List.replicate 12 0) =
        Except.ok v :=
  ⟨(adversarial_square_reshape _ _ _ _ rfl (by simp [ImageAdversarial.new])
      (by simp [ImageAdversarial.new])).1 (by decide),
    (adversarial_square_reshape _ _ _ _ rfl (by simp [ImageAdversarial.new])
      (by simp [ImageAdversarial.new])).2 rfl⟩

/-! ## Construction of the perturbation domain (C4) -/

/-- Modelled from the spec: the `ng.p.Array` parametrization
construction invoked by `ImageAdversarial.__init__` lives in
nevergrad's parametrization package, which is not part of this tree;
spec §4.1: `construct(shape, init_value, sigma, lower, upper, …)`
fails with ConfigError if `lower > upper` or `sigma ≤ 0` or the
init value's shape differs from `shape`. -/
def ngArrayConstruct (shapeLen initLen : ℕ) (sigma lower upper : ℚ) :
    Except Err Unit :=
  if upper < lower then Except.error Err.configError
  else if sigma ≤ 0 then Except.error Err.configError
  else if initLen ≠ shapeLen then Except.error Err.configError
  else Except.ok ()

/-- The parametrization steps of `ImageAdversarial.__init__`
(lines 120-122): `Array(init=np.zeros(self.image.shape))` — so the
init value always has the base image's shape — then
`set_mutation(sigma=self.epsilon / 10)` and
`set_bounds(lower=-self.epsilon, upper=self.epsilon)`. -/
def ImageAdversarial.constructDomain (imageLen : ℕ) (epsilon : ℚ) :
    Except Err Unit :=
  ngArrayConstruct imageLen imageLen (epsilon / 10) (-epsilon) epsilon

/-- C4: the adversarial construction fails with ConfigError exactly
when `epsilon ≤ 0`, and independently any shape mismatch between the
init value and the declared shape is a ConfigError. -/
theorem adversarial_construct_epsilon (imageLen : ℕ) (epsilon : ℚ) :
    (ImageAdversarial.constructDomain imageLen epsilon =
        Except.error Err.configError ↔ epsilon ≤ 0) ∧
    ∀ shapeLen initLen : ℕ, ∀ sigma lower upper : ℚ, initLen ≠ shapeLen →
      ngArrayConstruct shapeLen initLen sigma lower upper =
        Except.error Err.configError := by
  constructor
  · unfold ImageAdversarial.constructDomain ngArrayConstruct
    by_cases h1 : epsilon < -epsilon
    · rw [if_pos h1]
      simp only [true_iff]
      linarith
    · rw [if_neg h1]
      by_cases h2 : epsilon / 10 ≤ 0
      · rw [if_pos h2]
        simp only [true_iff]
        linarith
      · rw [if_neg h2, if_neg (by simp)]
        constructor
        · intro h; exact absurd h (by simp)
        · intro h; exact absurd h (by linarith)
  · intro shapeLen initLen sigma lower upper hne
    unfold ngArrayConstruct
    by_cases h1 : upper < lower
    · rw [if_pos h1]
    · rw [if_neg h1]
      by_cases h2 : sigma ≤ 0
      · rw [if_pos h2]
      · rw [if_neg h2, if_pos hne]

theorem adversarial_construct_epsilon_witness :
    ImageAdversarial.constructDomain 150528 0 = Except.error Err.configError ∧
    ngArrayConstruct 5 4 1 0 1 = Except.error Err.configError :=
  ⟨(adversarial_construct_epsilon 150528 0).1.mpr (by norm_num),
    (adversarial_construct_epsilon 150528 0).2 5 4 1 0 1 (by decide)⟩

/-! ## Benchmark enumeration -/

/-- The names bound at the top level of
`nevergrad/functions/images/core.py`: the imports (lines 6-18) and the
classes defined by the module.  The name `data_folder`, read at line
169, is not among them. -/
def moduleGlobals : List String :=
  ["Path", "np", "PIL", "nn", "torch", "torchvision", "resnet50", "tr",
    "ng", "tp", "base", "Image", "Normalize", "Resnet50", "TestClassifier",
    "ImageAdversarial"]

/-- `ImageAdversarial._with_tag` (lines 132-143): builds the instance
with `cls(**kwargs)` and then adds the tag entries to its
descriptors. -/
def ImageAdversarial.with_tag (tags : List (String × DescrVal))
    (classifier : Classifier) (dims : ℕ × ℕ × ℕ) (data : List ℚ)
    (label : ℤ) (targeted : Bool) (epsilon : ℚ) : AdvInstance :=
  let func := ImageAdversarial.new classifier dims data label targeted epsilon
  { func with descriptors := func.descriptors ++ tags }

/-- One `(data, target)` pair drawn from the imagenet data loader
(batch size 1), together with the prediction
`torch.max(classifier(data), axis=1)` of the opaque `Resnet50`
collaborator on it. -/
structure BatchItem where
  dims : ℕ × ℕ × ℕ
  data : List ℚ
  target : ℤ
  pred : ℤ
  deriving DecidableEq, Repr

/-- The external, random inputs the generator consumes:
`torch.rand((3, 224, 224))` in the "test" branch, and the shuffled
data-loader batch in the "imagenet" branch. -/
structure Env where
  testImage : List ℚ
  batch : List BatchItem
  deriving DecidableEq, Repr

/-- What iterating a generator to exhaustion produces: the instances it
yielded, in order, and the exception (if any) that ended the
iteration. -/
structure GenTrace where
  yields : List AdvInstance
  genError : Option Err
  deriving DecidableEq, Repr

/-- Lines 172-177 of the "imagenet" branch: the `for` loop rebinds the
local `func` for every item whose prediction equals its target; the
`yield func` sits after the loop, at the loop's indentation level, so
only the last such binding is yielded, and if no item qualified, the
name `func` is unbound at the `yield` (UnboundLocalError, a
NameError). -/
def imagenetLoopTrace (tags : List (String × DescrVal))
    (batch : List BatchItem) : GenTrace :=
  let func? : Option AdvInstance := batch.foldl
    (fun acc item =>
      if item.pred = item.target then
        some (ImageAdversarial.with_tag tags Classifier.resnet50 item.dims
          item.data item.target false (1/20))
      else acc)
    none
  match func? with
  | some f => { yields := [f], genError := none }
  | none => { yields := [], genError := some (Err.nameError "func") }

/-- Translation of `ImageAdversarial.make_benchmark_functions`
(lines 153-179), as the trace of iterating the returned generator:
"test" yields one tagged instance over `torch.rand((3, 224, 224))`
with `TestClassifier(224)`, label 0, untargeted (and the default
`epsilon=0.05`); "imagenet" evaluates
`torchvision.datasets.ImageFolder(data_folder, transform)` (line 169),
whose argument `data_folder` is a free name not bound in the module,
so a NameError is raised there, before the loop is ever reached; any
other name raises `ValueError(f'Unknown benchmark case "{name}"')`. -/
def ImageAdversarial.make_benchmark_functions (name : String) (env : Env) :
    GenTrace :=
  let tags := [("benchmark", DescrVal.str name)]
  if name = "test" then
    { yields := [ImageAdversarial.with_tag tags (Classifier.testClassifier 224)
        (3, 224, 224) env.testImage 0 false (1/20)],
      genError := none }
  else if name = "imagenet" then
    if "data_folder" ∈ moduleGlobals then
      imagenetLoopTrace tags env.batch
    else
      { yields := [], genError := some (Err.nameError "data_folder") }
  else
    { yields := [],
      genError := some (Err.valueError ("Unknown benchmark case \x22" ++ name ++ "\x22")) }

/-- C9: iterating the generator returned for "imagenet" always raises
(a NameError on the unbound module-level name `data_folder`) before
yielding any instance, whatever the environment supplies. -/
theorem imagenet_raises_before_yield (env : Env) :
    (ImageAdversarial.make_benchmark_functions "imagenet" env).yields = [] ∧
    (ImageAdversarial.make_benchmark_functions "imagenet" env).genError =
      some (Err.nameError "data_folder") := by
  constructor <;>
    simp [ImageAdversarial.make_benchmark_functions, moduleGlobals]

/-- C3 (counter-evidence): on a batch of two items both classified
correctly, the loop of the "imagenet" branch — even granting it is
reached — yields exactly one instance (the last correct item), not one
per correctly classified item; and the branch as written never reaches
the loop: it yields nothing and raises a NameError. -/
theorem imagenet_yields_only_last :
    (List.filter (fun it => it.pred = it.target)
        [BatchItem.mk (3, 2, 2) (List.replicate 12 0) 1 1,
          BatchItem.mk (3, 2, 2) (List.replicate 12 (1/2)) 2 2]).length = 2 ∧
    (imagenetLoopTrace [("benchmark", DescrVal.str "imagenet")]
        [BatchItem.mk (3, 2, 2) (List.replicate 12 0) 1 1,
          BatchItem.mk (3, 2, 2) (List.replicate 12 (1/2)) 2 2]).yields.length = 1 ∧
    (ImageAdversarial.make_benchmark_functions "imagenet"
        (Env.mk []
          [BatchItem.mk (3, 2, 2) (List.replicate 12 0) 1 1,
            BatchItem.mk (3, 2, 2) (List.replicate 12 (1/2)) 2 2])).yields = [] := by
  refine ⟨by decide, by rfl, ?_⟩
  simp [ImageAdversarial.make_benchmark_functions, moduleGlobals]

/-- C5: for any name other than "test" and "imagenet", iterating the
generator raises ValueError immediately — nothing is yielded before
the error, and nothing is swallowed. -/
theorem unknown_benchmark_raises (name : String) (env : Env)
    (h1 : name ≠ "test") (h2 : name ≠ "imagenet") :
    ImageAdversarial.make_benchmark_functions name env =
      { yields := [],
        genError :=
          some (Err.valueError ("Unknown benchmark case \x22" ++ name ++ "\x22")) } := by
  unfold ImageAdversarial.make_benchmark_functions
  rw [if_neg h1, if_neg h2]

theorem unknown_benchmark_raises_witness :
    ImageAdversarial.make_benchmark_functions "nonsense" (Env.mk [] []) =
      { yields := [],
        genError :=
          some (Err.valueError ("Unknown benchmark case \x22nonsense\x22")) } :=
  unknown_benchmark_raises "nonsense" (Env.mk [] []) (by decide) (by decide)

/-- The single instance the "test" branch yields over the random image
`img`: `TestClassifier(224)`, shape `(3,224,224)`, label 0, untargeted,
default epsilon `0.05`, with the `benchmark = "test"` tag appended to
the descriptors added by `__init__`. -/
def testInstance (img : List ℚ) : AdvInstance where
  targeted := false
  epsilon := 1/20
  imageDims := (3, 224, 224)
  imageData := img
  label := 0
  classifier := Classifier.testClassifier 224
  descriptors := [("label", DescrVal.int 0), ("targeted", DescrVal.bool false),
    ("epsilon", DescrVal.rat (1/20)), ("benchmark", DescrVal.str "test")]

/-- C6: for the name "test" the generator yields exactly one instance —
`TestClassifier(224)` over the random `(3,224,224)` image, label 0,
untargeted, default epsilon 0.05 — finishes without error, and the
instance's descriptors contain the tag `benchmark = "test"`. -/
theorem test_benchmark_single_instance (env : Env) :
    ImageAdversarial.make_benchmark_functions "test" env =
      { yields := [testInstance env.testImage], genError := none } ∧
    ("benchmark", DescrVal.str "test") ∈ (testInstance env.testImage).descriptors := by
  constructor
  · rfl
  · simp [testInstance]

end ImagesCore
